import Mathlib

/-!
Shallow embedding of the Sales-analytics-system repository.

Sources embedded here:
- `src/main.py` — `clean_sales_data` (the record parser / validation loop);
- `src/utils/data_processor.py` — `calculate_total_revenue`, `region_wise_sales`,
  `top_selling_products`, `daily_sales_trend`, `find_peak_sales_day`,
  `low_performing_products`;
- `src/utils/api_handler.py` — `enrich_sales_data`.

Modelling conventions:
- Python strings are modelled through `String.data` (lists of characters), so that
  every definition evaluates by kernel reduction on concrete inputs.  The input
  file is decoded as latin-1, hence only ASCII decimal digits can ever satisfy
  Python's `int()`, and ASCII whitespace is what `str.strip()` removes on the
  data this program handles.
- `Quantity` and `UnitPrice` are Python `int`s (produced by `int(...)` in the
  parser), so every revenue in the program is integer-valued; float addition of
  integers of this size is exact and `round(x, 2)` is the identity on them.
  Revenues are therefore modelled as `Int`.
- Fallible code is embedded as `Option`/`Except`.  `data_processor.py` lacks
  all import statements, so every aggregation in it that begins with
  `defaultdict(...)` raises `NameError` on every input; those functions are
  embedded as the exception values they produce (see the section on
  `data_processor.py` below).
-/

namespace SalesAnalytics

/-! ## Python string primitives (on `String.data`) -/

/-- The ASCII whitespace characters removed by Python's `str.strip()`
(space, tab, newline, carriage return, vertical tab, form feed). -/
def pySpaceChar (c : Char) : Bool :=
  c = ' ' || c = '\t' || c = '\n' || c = '\r' || c = '\x0b' || c = '\x0c'

/-- Python `s.strip()`: remove leading and trailing whitespace. -/
def pyStrip (s : String) : String :=
  String.mk (((s.data.dropWhile pySpaceChar).reverse.dropWhile pySpaceChar).reverse)

/-- Split a character list on a separator character; `[[]]` on the empty list,
matching Python's `''.split(sep) == ['']`. -/
def splitCharList (sep : Char) : List Char → List (List Char)
  | [] => [[]]
  | c :: rest =>
    let r := splitCharList sep rest
    if c = sep then [] :: r
    else
      match r with
      | g :: gs => (c :: g) :: gs
      | [] => [[c]]

/-- Python `s.split(sep)` for a one-character separator. -/
def pySplit (s : String) (sep : Char) : List String :=
  (splitCharList sep s.data).map String.mk

/-- Python `s.replace(',', '')`: drop every comma. -/
def stripCommas (s : String) : String :=
  String.mk (s.data.filter (fun c => c ≠ ','))

/-- Python `s.startswith(c)` for a one-character sentinel. -/
def pyStartsWith (c : Char) (s : String) : Bool :=
  match s.data with
  | [] => false
  | a :: _ => a = c

/-- Python `s[1:]`: drop the first character (never raises, even on `""`). -/
def pyDropFirst (s : String) : String :=
  String.mk s.data.tail

/-- The digit-and-underscore body accepted by Python's `int()` after the
optional sign: digits with single underscores allowed strictly between
digits (`1_000` parses, `1__0`, `_1`, `1_` do not).  The head character is
checked separately by `pyIntBody`. -/
def pyDigitChars : List Char → Bool
  | [] => true
  | ['_'] => false
  | '_' :: c :: rest => c.isDigit && pyDigitChars rest
  | c :: rest => c.isDigit && pyDigitChars rest

/-- Numeric value of a list of ASCII digits. -/
def digitsToNat (cs : List Char) : Nat :=
  cs.foldl (fun a c => a * 10 + (c.toNat - 48)) 0

/-- The part of Python `int()` after stripping whitespace and the sign. -/
def pyIntBody (sign : Int) (cs : List Char) : Option Int :=
  match cs with
  | [] => none
  | c :: _ =>
    if c.isDigit && pyDigitChars cs then
      some (sign * (digitsToNat (cs.filter (fun x => x ≠ '_')) : Int))
    else none

/-- Python `int(s)`: surrounding whitespace stripped, optional single sign,
then a nonempty digit body; `none` models `ValueError`. -/
def pyInt (s : String) : Option Int :=
  match (pyStrip s).data with
  | '+' :: rest => pyIntBody 1 rest
  | '-' :: rest => pyIntBody (-1) rest
  | rest => pyIntBody 1 rest

/-! ## The record parser: `clean_sales_data` in `src/main.py` -/

/-- One validated sales record, with the field names used by the pipeline's
transaction dictionaries (`Quantity` and `UnitPrice` are Python `int`s). -/
structure Transaction where
  TransactionID : String
  Date : String
  ProductID : String
  ProductName : String
  Quantity : Int
  UnitPrice : Int
  CustomerID : String
  Region : String
deriving DecidableEq, Repr

/-- The per-line validation of `clean_sales_data`, applied to the fields of an
already-stripped line (`parts = line.split('|')`): field count, `T` prefix,
non-empty customer/region, integer parse of quantity and unit price after
comma stripping, positivity.  Field names: `parts[0]` transaction_id,
`parts[1]` date, `parts[2]` product_id, `parts[3]` product_name,
`parts[4]` quantity, `parts[5]` unit_price, `parts[6]` customer_id,
`parts[7]` region. -/
def processFields (parts : List String) : Option Transaction :=
  if parts.length ≠ 8 then none
  else if pyStartsWith 'T' parts[0]! = false then none
  else if pyStrip parts[6]! = "" ∨ pyStrip parts[7]! = "" then none
  else
    match pyInt (stripCommas parts[4]!), pyInt (stripCommas parts[5]!) with
    | some q, some p =>
      if q ≤ 0 ∨ p ≤ 0 then none
      else
        some { TransactionID := parts[0]!, Date := parts[1]!, ProductID := parts[2]!,
               ProductName := stripCommas parts[3]!, Quantity := q, UnitPrice := p,
               CustomerID := parts[6]!, Region := parts[7]! }
    | _, _ => none

/-- Validation of one stripped, non-blank line. -/
def processLine (line : String) : Option Transaction :=
  processFields (pySplit line '|')

/-- The three counters of `clean_sales_data`. -/
structure CleanResult where
  total_records : Nat
  valid_records : List Transaction
  invalid_count : Nat
deriving DecidableEq, Repr

/-- One iteration of the `for line in file` loop of `clean_sales_data`:
strip, skip blanks silently, count the record, then validate. -/
def cleanStep (acc : CleanResult) (rawLine : String) : CleanResult :=
  let line := pyStrip rawLine
  if line = "" then acc
  else
    match processLine line with
    | some r =>
      { total_records := acc.total_records + 1,
        valid_records := acc.valid_records ++ [r],
        invalid_count := acc.invalid_count }
    | none =>
      { total_records := acc.total_records + 1,
        valid_records := acc.valid_records,
        invalid_count := acc.invalid_count + 1 }

/-- `clean_sales_data`, as a function of the data lines (the header line is
discarded by the caller before this loop). -/
def clean_sales_data (lines : List String) : CleanResult :=
  lines.foldl cleanStep { total_records := 0, valid_records := [], invalid_count := 0 }

/-! ## `src/utils/data_processor.py`

`data_processor.py` contains no import statements, yet every aggregation in
it except `calculate_total_revenue` begins by calling `defaultdict(...)`
(and `daily_sales_trend` additionally uses `datetime.strptime`).  Neither
name is bound in the module, so each of those functions raises
`NameError: name 'defaultdict' is not defined` at its first statement, for
every input — including the empty list — before any accumulation takes
place.  They are therefore embedded as the exception values they produce;
only `calculate_total_revenue` (lines 1–11, self-contained and working)
computes. -/

/-- A raised Python exception: its kind and the offending name. -/
inductive PyExc where
  | nameError (name : String)
deriving DecidableEq, Repr

/-- Revenue of one transaction: `tx['Quantity'] * tx['UnitPrice']`
(the spec's `line_total`). -/
def lineTotal (tx : Transaction) : Int :=
  tx.Quantity * tx.UnitPrice

/-- `calculate_total_revenue`: the accumulated sum of line totals.  The
trailing `round(total_revenue, 2)` is the identity here because every line
total is an integer. -/
def calculate_total_revenue (transactions : List Transaction) : Int :=
  transactions.foldl (fun total tx => total + lineTotal tx) 0

/-- The per-region summary entry that `region_wise_sales` is documented to
produce (source lines 38–42); no run ever builds one — see
`region_wise_sales`. -/
structure RegionStat where
  total_sales : Int
  transaction_count : Nat
  percentage : ℚ
deriving DecidableEq, Repr

/-- `region_wise_sales`: its first statement `region_data = defaultdict(...)`
(line 19) raises `NameError` — the module never imports `defaultdict` — so
the function errors on every input before accumulating anything (the missing
`return` statement at its trailing `# Sort` comment is unreachable as
well). -/
def region_wise_sales (_transactions : List Transaction) :
    Except PyExc (List (String × RegionStat)) :=
  .error (.nameError "defaultdict")

/-- `top_selling_products(transactions, n=5)`: its first statement
`product_data = defaultdict(...)` (line 52) raises `NameError` on every
input; no product list is ever built or returned. -/
def top_selling_products (_transactions : List Transaction) (_n : Nat) :
    Except PyExc (List (String × Int × Int)) :=
  .error (.nameError "defaultdict")

/-- `low_performing_products(transactions, threshold=10)`: its first
statement `product_data = defaultdict(...)` (line 174) raises `NameError` on
every input; no product list is ever built or returned. -/
def low_performing_products (_transactions : List Transaction) (_threshold : Int) :
    Except PyExc (List (String × Int × Int)) :=
  .error (.nameError "defaultdict")

/-- `daily_sales_trend`: its first statement `daily_data = defaultdict(...)`
(line 123) raises `NameError` on every input (the `datetime.strptime` key
sort at line 139 is equally unbound, but is never reached). -/
def daily_sales_trend (_transactions : List Transaction) :
    Except PyExc (List (String × Int × Nat × Nat)) :=
  .error (.nameError "defaultdict")

/-- `find_peak_sales_day`: its own body is exception-free — it first calls
`daily_sales_trend` and, given a summary, scans it keeping the first entry
whose revenue strictly exceeds the best so far, starting from
`(None, 0.0, 0)`.  Since `daily_sales_trend` raises on every input, the
exception propagates and this function raises too — on the empty list as
well as on any nonempty one. -/
def find_peak_sales_day (transactions : List Transaction) :
    Except PyExc (Option String × Int × Nat) :=
  match daily_sales_trend transactions with
  | .error e => .error e
  | .ok daily_summary =>
    .ok (daily_summary.foldl
      (fun acc e => if e.2.1 > acc.2.1 then (some e.1, e.2.1, e.2.2.1) else acc)
      ((none : Option String), (0 : Int), (0 : Nat)))

/-! ## `src/utils/api_handler.py` -/

/-- The product info stored by `create_product_mapping` under a numeric id.
Enrichment only copies these values verbatim, so the scalar JSON values
(`title`, `category`, `brand`, `rating`) are modelled as opaque optional
strings (each may be JSON `null`, i.e. Python `None`). -/
structure ApiInfo where
  title : Option String
  category : Option String
  brand : Option String
  rating : Option String
deriving DecidableEq, Repr

/-- A transaction dict after `enrich_sales_data`: the eight original fields
plus the four `API_*` keys. -/
structure EnrichedTransaction where
  TransactionID : String
  Date : String
  ProductID : String
  ProductName : String
  Quantity : Int
  UnitPrice : Int
  CustomerID : String
  Region : String
  API_Category : Option String
  API_Brand : Option String
  API_Rating : Option String
  API_Match : Bool
deriving DecidableEq, Repr

/-- The body of the `for tx in transactions` loop of `enrich_sales_data`:
`tx.copy()`, then `product_id_num = int(tx['ProductID'][1:])` (any failure
giving `None`), then the lookup in the product mapping; `if api_data:` is
`isSome` here because every value stored by `create_product_mapping` is a
non-empty (hence truthy) dict. -/
def enrich_tx (product_mapping : List (Int × ApiInfo)) (tx : Transaction) :
    EnrichedTransaction :=
  let product_id_num : Option Int := pyInt (pyDropFirst tx.ProductID)
  let api_data : Option ApiInfo :=
    match product_id_num with
    | some i => product_mapping.lookup i
    | none => none
  match api_data with
  | some info =>
    { TransactionID := tx.TransactionID, Date := tx.Date, ProductID := tx.ProductID,
      ProductName := tx.ProductName, Quantity := tx.Quantity, UnitPrice := tx.UnitPrice,
      CustomerID := tx.CustomerID, Region := tx.Region,
      API_Category := info.category, API_Brand := info.brand,
      API_Rating := info.rating, API_Match := true }
  | none =>
    { TransactionID := tx.TransactionID, Date := tx.Date, ProductID := tx.ProductID,
      ProductName := tx.ProductName, Quantity := tx.Quantity, UnitPrice := tx.UnitPrice,
      CustomerID := tx.CustomerID, Region := tx.Region,
      API_Category := none, API_Brand := none,
      API_Rating := none, API_Match := false }

/-- `enrich_sales_data`: enrich each transaction in order (the product mapping,
a Python dict keyed by integer id, is an association list with distinct keys;
the file-saving side effect is outside this embedding). -/
def enrich_sales_data (transactions : List Transaction)
    (product_mapping : List (Int × ApiInfo)) : List EnrichedTransaction :=
  transactions.map (enrich_tx product_mapping)

/-! ## Spec-side definitions

These definitions follow the words of the specification (not the source); the
claim theorems compare the source-derived functions above against them. -/

/-- The specification's rejection condition (claim C4's disjunction), on the
split fields of a line: wrong field count, transaction id not starting with
`T`, empty customer id or region after trimming, quantity or unit price
failing to parse as an integer after comma stripping, or a parsed value that
is not positive. -/
def rejectSpecParts (parts : List String) : Prop :=
  parts.length ≠ 8
    ∨ pyStartsWith 'T' parts[0]! = false
    ∨ pyStrip parts[6]! = ""
    ∨ pyStrip parts[7]! = ""
    ∨ pyInt (stripCommas parts[4]!) = none
    ∨ pyInt (stripCommas parts[5]!) = none
    ∨ (pyInt (stripCommas parts[4]!)).getD 1 ≤ 0
    ∨ (pyInt (stripCommas parts[5]!)).getD 1 ≤ 0

/-- The specification's rejection condition for a non-blank line. -/
def rejectSpec (line : String) : Prop :=
  rejectSpecParts (pySplit line '|')

instance (parts : List String) : Decidable (rejectSpecParts parts) :=
  inferInstanceAs (Decidable (_ ∨ _ ∨ _ ∨ _ ∨ _ ∨ _ ∨ _ ∨ _))

instance (line : String) : Decidable (rejectSpec line) :=
  inferInstanceAs (Decidable (rejectSpecParts _))

/-- Modelled from the spec: "date: string in `YYYY-MM-DD` form" — a date
string is valid when it is four digits, a dash, a two-digit month in 1..12, a
dash, and a two-digit day in 1..31.  Used only to exhibit an accepted record
whose stored date is not a valid date string (claim C10). -/
def isValidYMD (s : String) : Bool :=
  match s.data with
  | [y1, y2, y3, y4, '-', m1, m2, '-', d1, d2] =>
    y1.isDigit && y2.isDigit && y3.isDigit && y4.isDigit &&
    m1.isDigit && m2.isDigit && d1.isDigit && d2.isDigit &&
    1 ≤ digitsToNat [m1, m2] && digitsToNat [m1, m2] ≤ 12 &&
    1 ≤ digitsToNat [d1, d2] && digitsToNat [d1, d2] ≤ 31
  | _ => false

/-! ## Parser lemmas -/

/-- Rejection by the parser is exactly the spec's disjunction of reasons. -/
theorem processFields_none_iff (parts : List String) :
    processFields parts = none ↔ rejectSpecParts parts := by
  unfold processFields rejectSpecParts
  rcases hq : pyInt (stripCommas parts[4]!) with _ | q <;>
    rcases hp : pyInt (stripCommas parts[5]!) with _ | p <;>
      split_ifs with h1 h2 h3 <;>
        simp_all <;> first | tauto | omega

/-- The loop invariant of `clean_sales_data`:
`invalid_count + len(valid_records) = total_records`. -/
theorem cleanStep_preserves_invariant :
    ∀ (lines : List String) (acc : CleanResult),
      acc.invalid_count + acc.valid_records.length = acc.total_records →
      (lines.foldl cleanStep acc).invalid_count
          + (lines.foldl cleanStep acc).valid_records.length
        = (lines.foldl cleanStep acc).total_records := by
  intro lines
  induction lines with
  | nil => exact fun acc h => h
  | cons l rest ih =>
    intro acc h
    refine ih (cleanStep acc l) ?_
    unfold cleanStep
    by_cases hb : pyStrip l = ""
    · simpa [hb] using h
    · rcases hr : processLine (pyStrip l) with _ | r <;>
        simp [hb, hr, List.length_append] <;> omega

/-- A blank line anywhere in the input leaves the whole result unchanged. -/
theorem clean_sales_data_blank (pre post : List String) (b : String)
    (hb : pyStrip b = "") :
    clean_sales_data (pre ++ b :: post) = clean_sales_data (pre ++ post) := by
  unfold clean_sales_data
  rw [List.foldl_append, List.foldl_append, List.foldl_cons]
  have : cleanStep (pre.foldl cleanStep ⟨0, [], 0⟩) b
      = pre.foldl cleanStep ⟨0, [], 0⟩ := by
    unfold cleanStep
    simp [hb]
  rw [this]

/-! ## Claim theorems -/

/-- C1: the claim says `region_wise_sales` returns a per-region summary
mapping (sum of line totals, transaction count, percentage of grand total)
ordered by descending sales.  The code cannot return anything:
`data_processor.py` never imports `defaultdict`, so the function's first
statement raises `NameError` for every input (and its body also lacks a
`return` statement).  Evaluated at a concrete transaction list, the
embedding yields the exception, not a summary. -/
theorem C1_region_wise_sales_raises :
    region_wise_sales
        [(⟨"T001", "2024-01-05", "P101", "WidgetPro", 2, 500, "C001", "North"⟩ :
          Transaction)]
      = .error (.nameError "defaultdict") :=
  rfl

/-- C2: the claim says `calculate_total_revenue` equals the sum of the
`total_sales` fields of `region_wise_sales`'s result, within rounding
tolerance.  At a concrete two-region input the total revenue is `1100`, but
`region_wise_sales` raises `NameError` (unbound `defaultdict`) instead of
returning a summary, so the claimed sum has nothing to range over. -/
theorem C2_total_revenue_region_sum_unformable :
    calculate_total_revenue
        [(⟨"T001", "2024-01-05", "P101", "Widget", 2, 500, "C001", "North"⟩ : Transaction),
         (⟨"T002", "2024-01-06", "P102", "Gadget", 1, 100, "C002", "South"⟩ : Transaction)]
      = 1100
    ∧ region_wise_sales
        [(⟨"T001", "2024-01-05", "P101", "Widget", 2, 500, "C001", "North"⟩ : Transaction),
         (⟨"T002", "2024-01-06", "P102", "Gadget", 1, 100, "C002", "South"⟩ : Transaction)]
      = .error (.nameError "defaultdict") :=
  ⟨by decide, rfl⟩

/-- C3: for every input line sequence, `invalid_count + len(valid_records) =
total_records_parsed`, and a blank line anywhere in the input is counted in
neither quantity (it leaves the entire result unchanged). -/
theorem C3_parse_count_invariant (lines : List String) :
    ((clean_sales_data lines).invalid_count
        + (clean_sales_data lines).valid_records.length
      = (clean_sales_data lines).total_records)
    ∧ ∀ (pre post : List String) (b : String), pyStrip b = "" →
        clean_sales_data (pre ++ b :: post) = clean_sales_data (pre ++ post) := by
  constructor
  · exact cleanStep_preserves_invariant lines ⟨0, [], 0⟩ rfl
  · intro pre post b hb
    exact clean_sales_data_blank pre post b hb

/-- Witness for C3 at a concrete input: a blank line between records changes
nothing. -/
theorem C3_parse_count_invariant_witness :
    clean_sales_data
        (["T001|2024-01-05|P101|Widget|2|500|C001|North"] ++ "  " ::
          ["T002|2024-01-06|P102|Gadget|1|100|C002|South"])
      = clean_sales_data
        (["T001|2024-01-05|P101|Widget|2|500|C001|North"] ++
          ["T002|2024-01-06|P102|Gadget|1|100|C002|South"]) :=
  (C3_parse_count_invariant []).2
    ["T001|2024-01-05|P101|Widget|2|500|C001|North"]
    ["T002|2024-01-06|P102|Gadget|1|100|C002|South"] "  " (by decide)

/-- C4: a non-blank line is rejected (counted invalid, no record emitted) if
and only if it has a field count other than 8, a transaction id not starting
with `T`, an empty customer id or region after trimming, a quantity or unit
price that does not parse as an integer after comma stripping, or a parsed
quantity or unit price that is not positive; otherwise it is accepted and one
record is emitted (the parser is a total function: no exception escapes). -/
theorem C4_reject_iff (line : String) (hnb : pyStrip line ≠ "") :
    (((clean_sales_data [line]).invalid_count = 1
        ∧ (clean_sales_data [line]).valid_records = [])
      ↔ rejectSpec (pyStrip line))
    ∧ (((clean_sales_data [line]).invalid_count = 0
        ∧ (clean_sales_data [line]).valid_records.length = 1)
      ↔ ¬ rejectSpec (pyStrip line)) := by
  have h0 : clean_sales_data [line]
      = if pyStrip line = "" then ⟨0, [], 0⟩
        else match processLine (pyStrip line) with
          | some r => ⟨1, [r], 0⟩
          | none => ⟨1, [], 1⟩ := rfl
  rw [h0, if_neg hnb]
  rcases hpl : processLine (pyStrip line) with _ | r <;> simp only [hpl]
  · have hr : rejectSpec (pyStrip line) := (processFields_none_iff _).mp hpl
    simp [hr]
  · have hr : ¬ rejectSpec (pyStrip line) := by
      intro hc
      have hn : processLine (pyStrip line) = none := (processFields_none_iff _).mpr hc
      rw [hpl] at hn
      exact Option.noConfusion hn
    simp [hr]

/-- Witness for C4 at the spec's scenario `unit_price = "0"`: the line is
rejected because `0` is not positive. -/
theorem C4_reject_iff_witness :
    (clean_sales_data ["T001|2024-01-05|P101|Widget|2|0|C001|North"]).invalid_count = 1
    ∧ (clean_sales_data ["T001|2024-01-05|P101|Widget|2|0|C001|North"]).valid_records
        = [] :=
  ((C4_reject_iff "T001|2024-01-05|P101|Widget|2|0|C001|North" (by decide)).1).mpr
    (by decide)

/-- C5: the claim says `find_peak_sales_day` returns a date whose revenue
is greater than or equal to every other day's in the daily trend, and
signals no peak (`(None, 0.0, 0)`) on an empty transaction set.  It returns
neither: `daily_sales_trend`, which it calls first, raises `NameError`
(unbound `defaultdict`) for every input, so `find_peak_sales_day` raises
too — on the empty list as well as on any nonempty one. -/
theorem C5_peak_day_raises :
    find_peak_sales_day ([] : List Transaction) = .error (.nameError "defaultdict")
    ∧ find_peak_sales_day
        [(⟨"T001", "2024-01-05", "P101", "Widget", 2, 500, "C001", "North"⟩ :
          Transaction)]
      = .error (.nameError "defaultdict") :=
  ⟨rfl, rfl⟩

/-- C6: the claim says `top_selling_products` returns a list of length at
most 5 that is the exact head of the per-product list sorted by total
quantity descending.  It returns no list at all: its first statement raises
`NameError` (unbound `defaultdict`) for every input, here evaluated at a
concrete transaction list with the source default `n = 5`. -/
theorem C6_top_products_raises :
    top_selling_products
        [(⟨"T001", "2024-01-05", "P101", "Widget", 2, 500, "C001", "North"⟩ :
          Transaction)] 5
      = .error (.nameError "defaultdict") :=
  rfl

/-- C7: the claim says `low_performing_products` returns exactly the
products with aggregate quantity strictly below the threshold (default 10),
ordered by quantity ascending.  It returns no list at all: its first
statement raises `NameError` (unbound `defaultdict`) for every input, here
evaluated at a concrete transaction list with the source default
threshold 10. -/
theorem C7_low_products_raises :
    low_performing_products
        [(⟨"T001", "2024-01-05", "P101", "Widget", 2, 500, "C001", "North"⟩ :
          Transaction)] 10
      = .error (.nameError "defaultdict") :=
  rfl

/-- C8: for a transaction whose product id consists of a non-digit prefix
character followed by the rest, enrichment parses the rest with Python
`int()`: parse failure or a missed lookup yields `api_match = false` with all
API fields `None`, and a hit yields `api_match = true` with the API fields
equal to the mapped values exactly. -/
theorem C8_enrichment_match (product_mapping : List (Int × ApiInfo))
    (tx : Transaction) (c : Char) (rest : List Char)
    (hpid : tx.ProductID.data = c :: rest) (_hc : c.isDigit = false) :
    (pyInt (String.mk rest) = none →
      (enrich_tx product_mapping tx).API_Match = false
      ∧ (enrich_tx product_mapping tx).API_Category = none
      ∧ (enrich_tx product_mapping tx).API_Brand = none
      ∧ (enrich_tx product_mapping tx).API_Rating = none)
    ∧ (∀ i : Int, pyInt (String.mk rest) = some i →
        product_mapping.lookup i = none →
        (enrich_tx product_mapping tx).API_Match = false
        ∧ (enrich_tx product_mapping tx).API_Category = none
        ∧ (enrich_tx product_mapping tx).API_Brand = none
        ∧ (enrich_tx product_mapping tx).API_Rating = none)
    ∧ (∀ (i : Int) (info : ApiInfo), pyInt (String.mk rest) = some i →
        product_mapping.lookup i = some info →
        (enrich_tx product_mapping tx).API_Match = true
        ∧ (enrich_tx product_mapping tx).API_Category = info.category
        ∧ (enrich_tx product_mapping tx).API_Brand = info.brand
        ∧ (enrich_tx product_mapping tx).API_Rating = info.rating) := by
  have hdrop : pyDropFirst tx.ProductID = String.mk rest := by
    unfold pyDropFirst
    rw [hpid]
    rfl
  refine ⟨?_, ?_, ?_⟩
  · intro hnone
    simp [enrich_tx, hdrop, hnone]
  · intro i hi hlk
    simp [enrich_tx, hdrop, hi, hlk]
  · intro i info hi hlk
    simp [enrich_tx, hdrop, hi, hlk]

/-- Witness for C8: `P101` hits key 101 of a one-entry mapping and the API
fields are copied exactly. -/
theorem C8_enrichment_match_witness :
    (enrich_tx [((101 : Int),
        (⟨some "iPhone", some "smartphones", some "Apple", some "4.69"⟩ : ApiInfo))]
      (⟨"T001", "2024-01-05", "P101", "Widget", 2, 500, "C001", "North"⟩ :
        Transaction)).API_Match = true
    ∧ (enrich_tx [((101 : Int),
        (⟨some "iPhone", some "smartphones", some "Apple", some "4.69"⟩ : ApiInfo))]
      (⟨"T001", "2024-01-05", "P101", "Widget", 2, 500, "C001", "North"⟩ :
        Transaction)).API_Category = some "smartphones"
    ∧ (enrich_tx [((101 : Int),
        (⟨some "iPhone", some "smartphones", some "Apple", some "4.69"⟩ : ApiInfo))]
      (⟨"T001", "2024-01-05", "P101", "Widget", 2, 500, "C001", "North"⟩ :
        Transaction)).API_Brand = some "Apple"
    ∧ (enrich_tx [((101 : Int),
        (⟨some "iPhone", some "smartphones", some "Apple", some "4.69"⟩ : ApiInfo))]
      (⟨"T001", "2024-01-05", "P101", "Widget", 2, 500, "C001", "North"⟩ :
        Transaction)).API_Rating = some "4.69" :=
  (C8_enrichment_match _ _ 'P' ['1', '0', '1'] (by decide) (by decide)).2.2
    101 ⟨some "iPhone", some "smartphones", some "Apple", some "4.69"⟩
    (by decide) (by decide)

/-- C9: enrichment is strictly additive: the enriched list maps each input
transaction in order, and every enriched transaction keeps the original
transaction's fields — in particular quantity, unit price, and the derived
line total — unchanged. -/
theorem C9_enrichment_frame (txs : List Transaction)
    (product_mapping : List (Int × ApiInfo)) :
    enrich_sales_data txs product_mapping = txs.map (enrich_tx product_mapping)
    ∧ ∀ tx : Transaction,
        (enrich_tx product_mapping tx).TransactionID = tx.TransactionID
        ∧ (enrich_tx product_mapping tx).Date = tx.Date
        ∧ (enrich_tx product_mapping tx).ProductID = tx.ProductID
        ∧ (enrich_tx product_mapping tx).ProductName = tx.ProductName
        ∧ (enrich_tx product_mapping tx).Quantity = tx.Quantity
        ∧ (enrich_tx product_mapping tx).UnitPrice = tx.UnitPrice
        ∧ (enrich_tx product_mapping tx).CustomerID = tx.CustomerID
        ∧ (enrich_tx product_mapping tx).Region = tx.Region
        ∧ (enrich_tx product_mapping tx).Quantity
              * (enrich_tx product_mapping tx).UnitPrice
            = lineTotal tx := by
  refine ⟨rfl, fun tx => ?_⟩
  cases hv : (match pyInt (pyDropFirst tx.ProductID) with
      | some i => product_mapping.lookup i
      | none => (none : Option ApiInfo)) with
  | some info => simp [enrich_tx, hv, lineTotal]
  | none => simp [enrich_tx, hv, lineTotal]

/-- C10: the parser never inspects the date field: acceptance of an 8-field
line is unchanged under any replacement of the date field, and a concrete
accepted record stores the date `NOT-A-DATE`, which is not a valid
`YYYY-MM-DD` date string. -/
theorem C10_date_not_validated :
    (∀ tid d d' pid pname qty price cid region : String,
      (processFields [tid, d, pid, pname, qty, price, cid, region]).isSome
        = (processFields [tid, d', pid, pname, qty, price, cid, region]).isSome)
    ∧ (∃ r : Transaction,
        processLine "T001|NOT-A-DATE|P101|Widget|2|500|C001|North" = some r
        ∧ r.Date = "NOT-A-DATE" ∧ isValidYMD r.Date = false) := by
  constructor
  · intro tid d d' pid pname qty price cid region
    unfold processFields
    simp only [List.getElem!_cons_zero, List.getElem!_cons_succ, List.length_cons,
      List.length_nil]
    rcases pyInt (stripCommas qty) with _ | q <;>
      rcases pyInt (stripCommas price) with _ | p <;>
        split_ifs <;> simp [apply_ite Option.isSome]
  · exact ⟨⟨"T001", "NOT-A-DATE", "P101", "Widget", 2, 500, "C001", "North"⟩,
      by decide, by decide, by decide⟩

end SalesAnalytics
